import Mathlib

/-!
Shallow embedding of `src/4._catboost_ICA_GPU.py`, an ICA band-reduction plus
CatBoost classification pipeline for hyperspectral images.

Modelling conventions:
* A hyperspectral cube is a row-major nested list (rows of pixels of bands),
  numeric values are rationals.
* The external numeric black boxes that the script calls — the FastICA solver,
  the learned CatBoost predictor, and the floating-point square root used by
  `StandardScaler` — are supplied as explicit function parameters bundled in
  `Oracles`; the pipeline's own control flow, data flow and validation logic
  are translated directly from the source.
* Python exceptions are modelled with `Except String`; the external side
  effects of a call (which expensive stages actually ran, which files were
  written) are returned as explicit traces.
* `random_state` arguments are modelled as `Option ℕ` at the library boundary:
  `none` means "use the ambient global random state" (the `globalRng`
  parameter), `some s` means an explicitly fixed seed, mirroring scikit-learn
  and CatBoost seed semantics.
-/

/-- A hyperspectral cube: a list of `H` rows, each a list of `W` pixels,
each a list of `B` spectral band values. -/
abbrev Cube := List (List (List ℚ))

/-- A 2D integer label grid (`H` rows of `W` labels). -/
abbrev Grid := List (List ℤ)

/-- A flat samples-by-columns numeric table. -/
abbrev Table := List (List ℚ)

/-- Hyperparameters handed to `CatBoostClassifier(...)` in `model_train_test`.
Field names follow the keyword arguments of the source call. -/
structure CatBoostConfig where
  iterations : ℕ
  learning_rate : ℚ
  depth : ℕ
  loss_function : String
  eval_metric : String
  random_seed : ℕ
  task_type : String
  early_stopping_rounds : ℕ
  custom_metric : List String
deriving DecidableEq

/-- Behaviours of the external numeric libraries the script calls, supplied as
explicit deterministic functions: the square root used inside
`StandardScaler`, the `FastICA().fit_transform` solver (a function of its
effective seed, the scaled table and the component count), and the predictor
learned by `CatBoostClassifier.fit` (a function of the hyperparameters, the
training data and the early-stopping eval set, yielding a per-row label). -/
structure Oracles where
  sqrtQ : ℚ → ℚ
  icaFit : ℕ → Table → ℕ → Table
  boostPredict : CatBoostConfig → Table → List ℤ → Table × List ℤ → (List ℚ → ℤ)

/-- The `j`-th column of a table (missing entries read as `0`). -/
def column (tbl : Table) (j : ℕ) : List ℚ :=
  tbl.map (fun r => r.getD j 0)

/-- Arithmetic mean of a list of rationals (empty list gives `0`,
as `x / 0 = 0` in `ℚ`). -/
def listMean (xs : List ℚ) : ℚ :=
  xs.sum / xs.length

/-- Population variance (the `ddof = 0` variance used by
`sklearn.preprocessing.StandardScaler`). -/
def popVariance (xs : List ℚ) : ℚ :=
  ((xs.map (fun x => (x - listMean xs) ^ 2)).sum) / xs.length

/-- Scikit-learn's `_handle_zeros_in_scale` guard, applied by `StandardScaler`
to the per-column scale: a scale of exactly `0` (a zero-variance column) is
replaced by the sentinel `1`, so the subsequent division is never by zero. -/
def handleZerosInScale (s : ℚ) : ℚ :=
  if s = 0 then 1 else s

/-- The per-column scale `StandardScaler` divides by: the square root of the
column's population variance, with the zero guard applied. -/
def colScale (o : Oracles) (tbl : Table) (j : ℕ) : ℚ :=
  handleZerosInScale (o.sqrtQ (popVariance (column tbl j)))

/-- The `scaler.fit_transform(hsi_image_reshaped)` call: every entry is
recentred by its column mean and divided by the guarded column scale. -/
def standardizeTable (o : Oracles) (tbl : Table) : Table :=
  tbl.map (fun row =>
    (List.range row.length).map (fun j =>
      (row.getD j 0 - listMean (column tbl j)) / colScale o tbl j))

/-- The source's `test_size=0.2`, written as the rational `1/5` in constructor
form (so that its numerator and denominator reduce definitionally). -/
def defaultTestSize : ℚ := ⟨1, 5, by decide, by decide⟩

/-- How many samples of label `c` appear in the label vector. -/
def classCount (ys : List ℤ) (c : ℤ) : ℕ := ys.count c

/-- The distinct class labels occurring in the label vector. -/
def classesOf (ys : List ℤ) : List ℤ := ys.dedup

/-- Modelled from the spec: the undersized-class check of scikit-learn's
stratified `train_test_split` (whose implementation is not part of this
repository). A class with fewer than 2 members cannot be stratified; this
returns such a class when one exists. -/
def undersizedClass (ys : List ℤ) : Option ℤ :=
  (classesOf ys).find? (fun c => decide (classCount ys c < 2))

/-- Modelled from the spec: the data error raised by the stratified split,
naming the offending class. -/
def stratifyErrorMsg (c : ℤ) : String :=
  "The least populated class in y (class " ++ toString c ++
    ") has fewer than 2 members, which is too few for a stratified split."

/-- Positions (into the flattened pixel order) that carry label `c`. -/
def classIndices (ys : List ℤ) (c : ℤ) : List ℕ :=
  (List.range ys.length).filter (fun i => ys.getD i 0 == c)

/-- Number of test samples drawn from a class of `m` members at test fraction
`t`, namely `⌊t * m⌋`, computed on the numerator/denominator representation. -/
def testCountFor (t : ℚ) (m : ℕ) : ℕ :=
  ((m : ℤ) * t.num / (t.den : ℤ)).toNat

/-- Modelled from the spec: the test-index selection of the seeded stratified
split — per class, a seed-rotated slice of that class's positions, of size
proportional to the test fraction, so label proportions are preserved. -/
def testIdxOf (ys : List ℤ) (t : ℚ) (seed : ℕ) : List ℕ :=
  (classesOf ys).flatMap (fun c =>
    ((classIndices ys c).rotate seed).take (testCountFor t (classCount ys c)))

/-- The complementary train indices: every flattened pixel position not chosen
for the test side. -/
def trainIdxOf (ys : List ℤ) (t : ℚ) (seed : ℕ) : List ℕ :=
  (List.range ys.length).filter (fun i => decide (i ∉ testIdxOf ys t seed))

/-- Outcome of the `train_test_split` call: the label vector it was keyed on,
the chosen index partition, and the materialised `X_train, X_test, y_train,
y_test` quadruple. -/
structure SplitResult where
  yAll : List ℤ
  trainIdx : List ℕ
  testIdx : List ℕ
  Xtrain : Table
  Xtest : Table
  ytrain : List ℤ
  ytest : List ℤ
deriving DecidableEq

/-- Modelled from the spec: scikit-learn's
`train_test_split(X, y, stratify=y, test_size=t, random_state=r)` (the
library's implementation is not part of this repository). It first rejects
label vectors containing a class too small to stratify, naming that class;
otherwise it deterministically partitions the sample indices per class under
the effective seed and materialises the four data parts. -/
def trainTestSplit (X : Table) (ys : List ℤ) (t : ℚ) (rstate : Option ℕ)
    (globalRng : ℕ) : Except String SplitResult :=
  match undersizedClass ys with
  | some c => Except.error (stratifyErrorMsg c)
  | none =>
      let seed := rstate.getD globalRng
      let te := testIdxOf ys t seed
      let tr := trainIdxOf ys t seed
      Except.ok
        { yAll := ys
          trainIdx := tr
          testIdx := te
          Xtrain := tr.map (fun i => X.getD i [])
          Xtest := te.map (fun i => X.getD i [])
          ytrain := tr.map (fun i => ys.getD i 0)
          ytest := te.map (fun i => ys.getD i 0) }

/-- The source's `learning_rate=0.1`, written as the rational `1/10` in
constructor form. -/
def defaultLearningRate : ℚ := ⟨1, 10, by decide, by decide⟩

/-- The exact `CatBoostClassifier(...)` construction in `model_train_test`,
keyword for keyword. -/
def cbcConfig (random_state : ℕ) : CatBoostConfig :=
  { iterations := 1000
    learning_rate := defaultLearningRate
    depth := 6
    loss_function := "MultiClass"
    eval_metric := "Accuracy"
    random_seed := random_state
    task_type := "GPU"
    early_stopping_rounds := 50
    custom_metric := ["Accuracy"] }

/-- A fitted CatBoost model: the number of features it was trained on and the
learned per-row predictor. -/
structure TrainedModel where
  nFeatures : ℕ
  predictRow : List ℚ → ℤ

/-- The `cbc.fit(X_train, y_train, eval_set=(X_test, y_test))` call: the
fitted model remembers the training table's width (its feature count) and
carries the oracle's learned predictor for this configuration and data. -/
def cbcFit (o : Oracles) (cfg : CatBoostConfig) (Xtr : Table) (ytr : List ℤ)
    (evalSet : Table × List ℤ) : TrainedModel :=
  { nFeatures := (Xtr.headD []).length
    predictRow := o.boostPredict cfg Xtr ytr evalSet }

/-- The error CatBoost raises when prediction data does not match the fitted
model's feature count. -/
def featureMismatchMsg : String :=
  "CatBoostError: feature count mismatch between the prediction input and the fitted model."

/-- The `cbc.predict(X)` call: CatBoost validates that every row of the
prediction input has exactly the feature count the model was trained on, then
applies the learned predictor row by row. -/
def cbcPredict (m : TrainedModel) (X : Table) : Except String (List ℤ) :=
  if X.all (fun r => r.length == m.nFeatures) then Except.ok (X.map m.predictRow)
  else Except.error featureMismatchMsg

/-- Scikit-learn's `accuracy_score`: the fraction of positions where the
predicted label equals the true label. -/
def accuracy_score (ytrue ypred : List ℤ) : ℚ :=
  (((ytrue.zip ypred).countP (fun p => p.1 == p.2)) : ℚ) / ytrue.length

/-- Numpy's `.reshape(h, w)` on a flat vector: `h` consecutive rows of `w`
entries in row-major order. -/
def reshapeGrid {α : Type} (h w : ℕ) (l : List α) : List (List α) :=
  match h with
  | 0 => []
  | Nat.succ h2 => l.take w :: reshapeGrid h2 w (l.drop w)

/-- Record of the single `cbc.fit` invocation performed by
`model_train_test`: its hyperparameters, training data, and the
`eval_set` used for early stopping. -/
structure FitCall where
  cfg : CatBoostConfig
  Xtrain : Table
  ytrain : List ℤ
  evalX : Table
  evalY : List ℤ
deriving DecidableEq

/-- Everything a successful `model_train_test` run produces or prints: the
split it used, the recorded fit call, the held-out accuracy, the full-cube
prediction vector, both 2D maps, and the argument pair handed to
`classification_report` / `confusion_matrix` (true labels, predicted labels).
Wall-clock training time is not modelled. -/
structure RunOutput where
  split : SplitResult
  fitCall : FitCall
  acc : ℚ
  yPredFull : List ℤ
  classificationMap : Grid
  groundTruthMap : Grid
  reportYTrue : List ℤ
  reportYPred : List ℤ
deriving DecidableEq

/-- The source's `model_train_test(hsi_image, gt, hsi_image_limited,
test_size=0.2, random_state=42)`, line by line: reshape the raw cube to a
samples-by-bands table, stratified-split the *reduced* table against the
flattened labels, fit CatBoost with the test split as eval set, score the test
split, predict over the *raw reshaped* table (`hsi_image_reshaped` — exactly
as the source does), and reshape predictions and labels into 2D maps. -/
def model_train_test (o : Oracles) (globalRng : ℕ) (hsi_image : Cube)
    (gt : Grid) (hsi_image_limited : Table) (test_size : ℚ := defaultTestSize)
    (random_state : ℕ := 42) : Except String RunOutput :=
  let h := hsi_image.length
  let w := (hsi_image.headD []).length
  let hsi_image_reshaped := hsi_image.flatten
  match trainTestSplit hsi_image_limited gt.flatten test_size (some random_state) globalRng with
  | Except.error e => Except.error e
  | Except.ok s =>
      let cfg := cbcConfig random_state
      let cbc := cbcFit o cfg s.Xtrain s.ytrain (s.Xtest, s.ytest)
      match cbcPredict cbc s.Xtest with
      | Except.error e => Except.error e
      | Except.ok y_pred =>
          let acc := accuracy_score s.ytest y_pred
          match cbcPredict cbc hsi_image_reshaped with
          | Except.error e => Except.error e
          | Except.ok y_pred_full =>
              Except.ok
                { split := s
                  fitCall :=
                    { cfg := cfg
                      Xtrain := s.Xtrain
                      ytrain := s.ytrain
                      evalX := s.Xtest
                      evalY := s.ytest }
                  acc := acc
                  yPredFull := y_pred_full
                  classificationMap := reshapeGrid h w y_pred_full
                  groundTruthMap := reshapeGrid h w gt.flatten
                  reportYTrue := gt.flatten
                  reportYPred := y_pred_full }

/-- Expensive pipeline stages of the `ICA` function whose execution we track:
the `scaler.fit_transform` call and the `FastICA().fit_transform` call. -/
inductive PipeStep where
  | scalerFitTransform
  | icaFitTransform
deriving DecidableEq

/-- The `ValueError` message raised by the `ICA` function's component check. -/
def componentsError : String :=
  "Number of components exceeds the number of bands in the image."

/-- The source's `ICA(hsi_image, gt, n_components=10)`, line by line, paired
with the trace of expensive stages that actually executed: reshape, then
`scaler.fit_transform` (which the source runs *before* the component-count
check), then the check — raising `ValueError` if `n_components > n_bands` —
then `FastICA(n_components, random_state=42).fit_transform` and the call to
`model_train_test` on the reduced table. -/
def ICA (o : Oracles) (globalRng : ℕ) (hsi_image : Cube) (gt : Grid)
    (n_components : ℕ := 10) : List PipeStep × Except String RunOutput :=
  let n_bands := ((hsi_image.headD []).headD []).length
  let hsi_image_reshaped := hsi_image.flatten
  let hsi_image_scaled := standardizeTable o hsi_image_reshaped
  if n_components > n_bands then
    ([PipeStep.scalerFitTransform], Except.error componentsError)
  else
    let hsi_image_limited :=
      o.icaFit ((some 42 : Option ℕ).getD globalRng) hsi_image_scaled n_components
    ([PipeStep.scalerFitTransform, PipeStep.icaFitTransform],
      model_train_test o globalRng hsi_image gt hsi_image_limited)

/-- Filesystem and console effects of `visualize_classification_map`, plus the
Python function's return value. -/
structure RenderResult where
  savedPaths : List String
  printed : List String
  ret : Option String
deriving DecidableEq

/-- The output path `visualize_classification_map` saves to. -/
def classificationImagePath (dataset_name : String) : String :=
  dataset_name ++ "_classification_vs_ground_truth.png"

/-- The source's `visualize_classification_map`: it draws the two-panel figure
(purely in-memory matplotlib state, not modelled), saves exactly one file via
`plt.savefig`, prints the confirmation line, and — having no `return`
statement — returns `None`. -/
def visualize_classification_map (classification_map ground_truth_map : Grid)
    (dataset_name : String) : RenderResult :=
  { savedPaths := [classificationImagePath dataset_name]
    printed := ["Figure saved as " ++ classificationImagePath dataset_name]
    ret := none }

/-- A concrete oracle bundle used to exercise the pipeline on small inputs:
a square-root stand-in that is zero only at zero, an ICA stand-in that keeps
the first `k` columns, and a constant-zero learned predictor. -/
def testOracle : Oracles :=
  { sqrtQ := fun x => if x = 0 then 0 else 1
    icaFit := fun _ tbl k => tbl.map (fun r => r.take k)
    boostPredict := fun _ _ _ _ => fun _ => 0 }

/-- A 1×4 cube with 2 bands per pixel. -/
def cube2 : Cube := [[[1, 2], [3, 4], [5, 6], [7, 8]]]

/-- Labels for `cube2`: two pixels of the background class 0, two of class 1. -/
def gt2 : Grid := [[0, 0, 1, 1]]

/-- A reduced 4×2 feature table for `cube2`. -/
def limited2 : Table := [[1, 0], [0, 1], [2, 0], [0, 2]]

/-- A 1×4 cube with 3 bands per pixel: reducing it to 2 components makes the
band count differ from the component count, as it does for all four datasets
of the script (103, 102, 204 and 200 bands against 10 components). -/
def cube3 : Cube := [[[1, 2, 3], [3, 4, 5], [5, 6, 7], [7, 8, 9]]]

/-- Labels for `cube3`. -/
def gt3 : Grid := [[0, 0, 1, 1]]

/-- A 1×1 cube with 2 bands: requesting 3 components violates the
component-count precondition. -/
def cube4 : Cube := [[[1, 2]]]

/-- Label for `cube4`. -/
def gt4 : Grid := [[0]]

/-- A placeholder split value. -/
def junkSplit : SplitResult := ⟨[], [], [], [], [], [], []⟩

/-- A placeholder run output value. -/
def junkRun : RunOutput := ⟨junkSplit, ⟨cbcConfig 0, [], [], [], []⟩, 0, [], [], [], [], []⟩

/-- The output of the successful concrete run of `model_train_test` on
`cube2` / `gt2` / `limited2` (band count 2 equals the reduced width 2, so the
full-map prediction passes CatBoost's feature-count check). -/
def out2 : RunOutput :=
  (model_train_test testOracle 0 cube2 gt2 limited2).toOption.getD junkRun

theorem defaultLearningRate_eq : defaultLearningRate = 1 / 10 := by
  rw [defaultLearningRate, Rat.mk'_eq_divInt, Rat.divInt_eq_div]
  norm_num

theorem testCountFor_eq_floor (t : ℚ) (m : ℕ) :
    testCountFor t m = (⌊t * m⌋).toNat := by
  rw [testCountFor]
  congr 1
  have : t * m = (((m : ℤ) * t.num : ℤ) : ℚ) / ((t.den : ℕ) : ℚ) := by
    rw [mul_comm]
    push_cast
    rw [mul_div_assoc, Rat.num_div_den]
  rw [this, Rat.floor_intCast_div_natCast]

theorem reshapeGrid_flatten {α : Type} (g : List (List α)) (w : ℕ)
    (hw : ∀ r ∈ g, r.length = w) : reshapeGrid g.length w g.flatten = g := by
  induction g with
  | nil => rfl
  | cons r t ih =>
      have hr : r.length = w := hw r (List.mem_cons_self r t)
      subst hr
      show reshapeGrid (t.length + 1) r.length (r ++ t.flatten) = r :: t
      rw [reshapeGrid, List.take_left, List.drop_left,
        ih (fun x hx => hw x (List.mem_cons_of_mem r hx))]

theorem model_train_test_ok_inv (o : Oracles) (gr : ℕ) (cube : Cube) (gt : Grid)
    (limited : Table) (ts : ℚ) (rs : ℕ) (out : RunOutput)
    (h : model_train_test o gr cube gt limited ts rs = Except.ok out) :
    ∃ s y_pred y_pred_full,
      trainTestSplit limited gt.flatten ts (some rs) gr = Except.ok s ∧
      cbcPredict (cbcFit o (cbcConfig rs) s.Xtrain s.ytrain (s.Xtest, s.ytest)) s.Xtest
        = Except.ok y_pred ∧
      cbcPredict (cbcFit o (cbcConfig rs) s.Xtrain s.ytrain (s.Xtest, s.ytest)) cube.flatten
        = Except.ok y_pred_full ∧
      out = { split := s
              fitCall := { cfg := cbcConfig rs, Xtrain := s.Xtrain, ytrain := s.ytrain,
                           evalX := s.Xtest, evalY := s.ytest }
              acc := accuracy_score s.ytest y_pred
              yPredFull := y_pred_full
              classificationMap := reshapeGrid cube.length (cube.headD []).length y_pred_full
              groundTruthMap := reshapeGrid cube.length (cube.headD []).length gt.flatten
              reportYTrue := gt.flatten
              reportYPred := y_pred_full } := by
  simp only [model_train_test] at h
  split at h
  · exact absurd h (by simp)
  · rename_i s hs
    split at h
    · exact absurd h (by simp)
    · rename_i y_pred hp
      split at h
      · exact absurd h (by simp)
      · rename_i y_pred_full hpf
        refine ⟨s, y_pred, y_pred_full, hs, hp, hpf, ?_⟩
        exact (Except.ok.injEq _ _).mp h.symm

theorem trainTestSplit_ok_inv (X : Table) (ys : List ℤ) (t : ℚ) (rstate : Option ℕ)
    (gr : ℕ) (s : SplitResult)
    (h : trainTestSplit X ys t rstate gr = Except.ok s) :
    undersizedClass ys = none ∧
    s = { yAll := ys
          trainIdx := trainIdxOf ys t (rstate.getD gr)
          testIdx := testIdxOf ys t (rstate.getD gr)
          Xtrain := (trainIdxOf ys t (rstate.getD gr)).map (fun i => X.getD i [])
          Xtest := (testIdxOf ys t (rstate.getD gr)).map (fun i => X.getD i [])
          ytrain := (trainIdxOf ys t (rstate.getD gr)).map (fun i => ys.getD i 0)
          ytest := (testIdxOf ys t (rstate.getD gr)).map (fun i => ys.getD i 0) } := by
  simp only [trainTestSplit] at h
  split at h
  · exact absurd h (by simp)
  · rename_i hu
    exact ⟨hu, ((Except.ok.injEq _ _).mp h).symm⟩

theorem trainIdx_or_testIdx (ys : List ℤ) (t : ℚ) (seed : ℕ) (i : ℕ)
    (hi : i < ys.length) :
    i ∈ trainIdxOf ys t seed ∨ i ∈ testIdxOf ys t seed := by
  by_cases hmem : i ∈ testIdxOf ys t seed
  · exact Or.inr hmem
  · refine Or.inl ?_
    rw [trainIdxOf, List.mem_filter]
    exact ⟨List.mem_range.mpr hi, by simpa using hmem⟩

/-- Claim C1. The spec says the full-cube prediction vector is computed by
applying the trained model to the ICA-reduced table. The code instead passes
`hsi_image_reshaped` — the raw spectral-band table — to `cbc.predict` for the
full map. Evaluated at a failing input (a 3-band cube reduced to 2
components): the pipeline gets past the component check and the ICA fit, and
then aborts with CatBoost's feature-count error, because the model was fitted
on the reduced width while the full-map input has the raw band width. Every
one of the script's four datasets has this shape mismatch (103, 102, 204, 200
bands against 10 components), so no run can complete. -/
theorem full_map_prediction_fails_on_raw_bands :
    (ICA testOracle 0 cube3 gt3 2).1
      = [PipeStep.scalerFitTransform, PipeStep.icaFitTransform] ∧
    (ICA testOracle 0 cube3 gt3 2).2 = Except.error featureMismatchMsg :=
  ⟨rfl, rfl⟩

/-- Claim C2, counterexample. The claim says that for `n_components > n_bands`
no partial computation happens — in particular standardization does not run
before the check rejects the input. On a concrete 2-band cube with 3 requested
components, the executed-stage trace shows `scaler.fit_transform` DID run even
though the validation error is raised. -/
theorem standardize_runs_despite_rejection :
    PipeStep.scalerFitTransform ∈ (ICA testOracle 0 cube4 gt4 3).1 ∧
    (ICA testOracle 0 cube4 gt4 3).2 = Except.error componentsError :=
  ⟨by decide, rfl⟩

/-- Claim C2, amended. For every cube and every `n_components > n_bands`, the
`ICA` function raises the explicit validation error before the ICA fit (and
before any classifier fitting) is attempted — but standardization has already
been performed before the check runs: the executed trace is exactly
`[scalerFitTransform]`. -/
theorem component_check_rejects_before_ica_fit (o : Oracles) (gr : ℕ)
    (cube : Cube) (gt : Grid) (n : ℕ)
    (h : ((cube.headD []).headD []).length < n) :
    (ICA o gr cube gt n).1 = [PipeStep.scalerFitTransform] ∧
    (ICA o gr cube gt n).2 = Except.error componentsError := by
  simp only [ICA]
  rw [if_pos h]
  exact ⟨rfl, rfl⟩

/-- Claim C2, witness: a 2-band cube with 3 requested components. -/
theorem component_check_rejects_before_ica_fit_witness :
    ((cube4.headD []).headD []).length < 3 ∧
    ((ICA testOracle 0 cube4 gt4 3).1 = [PipeStep.scalerFitTransform] ∧
      (ICA testOracle 0 cube4 gt4 3).2 = Except.error componentsError) :=
  ⟨by decide, component_check_rejects_before_ica_fit testOracle 0 cube4 gt4 3 (by decide)⟩

/-- Claim C3. In every successful `model_train_test` run, the recorded
`cbc.fit` call uses the held-out test split of the stratified split as its
early-stopping eval set, and the classifier configuration is exactly: 1000
iterations, learning rate 0.1, depth 6, multiclass log-loss objective,
accuracy as the monitored metric, and 50 early-stopping rounds. -/
theorem early_stopping_eval_set_and_hyperparameters (o : Oracles) (gr : ℕ)
    (cube : Cube) (gt : Grid) (limited : Table) (out : RunOutput)
    (h : model_train_test o gr cube gt limited = Except.ok out) :
    out.fitCall.cfg.iterations = 1000 ∧
    out.fitCall.cfg.learning_rate = 1 / 10 ∧
    out.fitCall.cfg.depth = 6 ∧
    out.fitCall.cfg.loss_function = "MultiClass" ∧
    out.fitCall.cfg.eval_metric = "Accuracy" ∧
    out.fitCall.cfg.early_stopping_rounds = 50 ∧
    ∃ s, trainTestSplit limited gt.flatten defaultTestSize (some 42) gr = Except.ok s ∧
      out.fitCall.evalX = s.Xtest ∧ out.fitCall.evalY = s.ytest ∧
      out.fitCall.Xtrain = s.Xtrain ∧ out.fitCall.ytrain = s.ytrain := by
  obtain ⟨s, y_pred, y_pred_full, hs, _, _, hout⟩ :=
    model_train_test_ok_inv o gr cube gt limited defaultTestSize 42 out h
  subst hout
  refine ⟨rfl, ?_, rfl, rfl, rfl, rfl, s, hs, rfl, rfl, rfl, rfl⟩
  simpa [cbcConfig] using defaultLearningRate_eq

/-- Claim C3, witness: the successful concrete run on `cube2`. -/
theorem early_stopping_eval_set_and_hyperparameters_witness :
    (model_train_test testOracle 0 cube2 gt2 limited2 = Except.ok out2) ∧
    (out2.fitCall.cfg.iterations = 1000 ∧
      out2.fitCall.cfg.learning_rate = 1 / 10 ∧
      out2.fitCall.cfg.depth = 6 ∧
      out2.fitCall.cfg.loss_function = "MultiClass" ∧
      out2.fitCall.cfg.eval_metric = "Accuracy" ∧
      out2.fitCall.cfg.early_stopping_rounds = 50 ∧
      ∃ s, trainTestSplit limited2 gt2.flatten defaultTestSize (some 42) 0 = Except.ok s ∧
        out2.fitCall.evalX = s.Xtest ∧ out2.fitCall.evalY = s.ytest ∧
        out2.fitCall.Xtrain = s.Xtrain ∧ out2.fitCall.ytrain = s.ytrain) :=
  ⟨rfl, early_stopping_eval_set_and_hyperparameters testOracle 0 cube2 gt2 limited2 out2 rfl⟩

/-- Claim C4. In every successful `model_train_test` run, the returned scalar
accuracy equals `accuracy_score` of the model's predictions on the test
features against the test labels of the stratified split — the figure is a
function of the held-out test partition and the fitted model only; no
training-set or unlabeled pixels enter it. -/
theorem accuracy_computed_on_test_partition_only (o : Oracles) (gr : ℕ)
    (cube : Cube) (gt : Grid) (limited : Table) (out : RunOutput)
    (h : model_train_test o gr cube gt limited = Except.ok out) :
    ∃ s y_pred,
      trainTestSplit limited gt.flatten defaultTestSize (some 42) gr = Except.ok s ∧
      cbcPredict (cbcFit o (cbcConfig 42) s.Xtrain s.ytrain (s.Xtest, s.ytest)) s.Xtest
        = Except.ok y_pred ∧
      out.acc = accuracy_score s.ytest y_pred := by
  obtain ⟨s, y_pred, y_pred_full, hs, hp, _, hout⟩ :=
    model_train_test_ok_inv o gr cube gt limited defaultTestSize 42 out h
  subst hout
  exact ⟨s, y_pred, hs, hp, rfl⟩

/-- Claim C4, witness: the successful concrete run on `cube2`. -/
theorem accuracy_computed_on_test_partition_only_witness :
    (model_train_test testOracle 0 cube2 gt2 limited2 = Except.ok out2) ∧
    (∃ s y_pred,
      trainTestSplit limited2 gt2.flatten defaultTestSize (some 42) 0 = Except.ok s ∧
      cbcPredict (cbcFit testOracle (cbcConfig 42) s.Xtrain s.ytrain (s.Xtest, s.ytest)) s.Xtest
        = Except.ok y_pred ∧
      out2.acc = accuracy_score s.ytest y_pred) :=
  ⟨rfl, accuracy_computed_on_test_partition_only testOracle 0 cube2 gt2 limited2 out2 rfl⟩

/-- Claim C5. For every labeled dataset in which some class has exactly one
sample, the stratified split raises an explicit error naming an offending
undersized class rather than silently falling back to an unstratified split. -/
theorem stratified_split_errors_on_undersized_class (X : Table) (ys : List ℤ)
    (t : ℚ) (rstate : Option ℕ) (gr : ℕ) (c : ℤ)
    (hc : c ∈ ys) (h1 : classCount ys c = 1) :
    ∃ c2, c2 ∈ ys ∧ classCount ys c2 < 2 ∧
      trainTestSplit X ys t rstate gr = Except.error (stratifyErrorMsg c2) := by
  have hmem : c ∈ classesOf ys := List.mem_dedup.mpr hc
  have hsome : ((classesOf ys).find? (fun c => decide (classCount ys c < 2))).isSome := by
    rw [List.find?_isSome]
    exact ⟨c, hmem, by simp [h1]⟩
  obtain ⟨c2, hfind⟩ := Option.isSome_iff_exists.mp hsome
  refine ⟨c2, List.mem_dedup.mp (List.mem_of_find?_eq_some hfind), ?_, ?_⟩
  · have := List.find?_some hfind
    simpa using this
  · simp only [trainTestSplit, undersizedClass]
    rw [hfind]

/-- Claim C5, witness: class 1 has exactly one sample among `[0, 0, 1]`, with
the fixed test fraction and seed. -/
theorem stratified_split_errors_on_undersized_class_witness :
    ((1 : ℤ) ∈ ([0, 0, 1] : List ℤ)) ∧ classCount [0, 0, 1] 1 = 1 ∧
    (∃ c2, c2 ∈ ([0, 0, 1] : List ℤ) ∧ classCount [0, 0, 1] c2 < 2 ∧
      trainTestSplit [] [0, 0, 1] defaultTestSize (some 42) 0
        = Except.error (stratifyErrorMsg c2)) :=
  ⟨by decide, by decide,
    stratified_split_errors_on_undersized_class [] [0, 0, 1] defaultTestSize
      (some 42) 0 1 (by decide) (by decide)⟩

/-- Claim C6. Flattening a row-major grid and reshaping it back is a no-op on
shape and element order; in particular the ground-truth map returned by a
successful `model_train_test` run equals the original ground-truth grid
element for element. -/
theorem flatten_reshape_roundtrip_and_ground_truth_map :
    (∀ (cube : Cube) (w : ℕ), (∀ r ∈ cube, r.length = w) →
        reshapeGrid cube.length w cube.flatten = cube) ∧
    (∀ (o : Oracles) (gr : ℕ) (cube : Cube) (gt : Grid) (limited : Table)
        (out : RunOutput),
      model_train_test o gr cube gt limited = Except.ok out →
      gt.length = cube.length →
      (∀ r ∈ gt, r.length = (cube.headD []).length) →
      out.groundTruthMap = gt) := by
  constructor
  · exact fun cube w hw => reshapeGrid_flatten cube w hw
  · intro o gr cube gt limited out h hlen hrow
    obtain ⟨s, y_pred, y_pred_full, _, _, _, hout⟩ :=
      model_train_test_ok_inv o gr cube gt limited defaultTestSize 42 out h
    subst hout
    show reshapeGrid cube.length (cube.headD []).length gt.flatten = gt
    rw [← hlen]
    exact reshapeGrid_flatten gt (cube.headD []).length hrow

/-- Claim C6, witness: the roundtrip on `cube2` itself, and the ground-truth
map of the successful concrete run equals `gt2`. -/
theorem flatten_reshape_roundtrip_and_ground_truth_map_witness :
    (reshapeGrid cube2.length 4 cube2.flatten = cube2) ∧
    (model_train_test testOracle 0 cube2 gt2 limited2 = Except.ok out2) ∧
    out2.groundTruthMap = gt2 :=
  ⟨flatten_reshape_roundtrip_and_ground_truth_map.1 cube2 4 (by decide),
    rfl,
    flatten_reshape_roundtrip_and_ground_truth_map.2 testOracle 0 cube2 gt2
      limited2 out2 rfl (by decide) (by decide)⟩

/-- Claim C7. Two runs of the full `ICA` pipeline on the same cube and labels
are identical whatever the ambient global random state is: because the code
passes the fixed seed 42 (`random_state=42`) explicitly to the split, to
FastICA and to CatBoost, the ambient state `globalRng` is never consulted, so
the split index partition, the reduced-feature table and everything downstream
are deterministic functions of the inputs and the fixed seed. -/
theorem pipeline_deterministic_for_fixed_seed (o : Oracles) (g1 g2 : ℕ)
    (cube : Cube) (gt : Grid) (n : ℕ) :
    ICA o g1 cube gt n = ICA o g2 cube gt n := rfl

/-- Claim C8. The scale the standardize step divides by is never zero, for
every input table and every column — and when a column has zero variance (so
its standard deviation is zero), the guard substitutes the sentinel scale 1
instead of dividing by zero. -/
theorem standardize_scale_never_zero (o : Oracles) (tbl : Table) (j : ℕ) :
    colScale o tbl j ≠ 0 ∧
    (o.sqrtQ 0 = 0 → popVariance (column tbl j) = 0 → colScale o tbl j = 1) := by
  constructor
  · simp only [colScale, handleZerosInScale]
    split
    · exact one_ne_zero
    · assumption
  · intro h0 hv
    simp [colScale, hv, h0, handleZerosInScale]

/-- Claim C8, witness: a constant column has zero variance and gets scale 1. -/
theorem standardize_scale_never_zero_witness :
    testOracle.sqrtQ 0 = 0 ∧ popVariance (column [[3], [3]] 0) = 0 ∧
    colScale testOracle [[3], [3]] 0 = 1 :=
  ⟨by simp [testOracle],
    by norm_num [popVariance, column, listMean],
    (standardize_scale_never_zero testOracle [[3], [3]] 0).2
      (by simp [testOracle]) (by norm_num [popVariance, column, listMean])⟩

/-- Claim C9, counterexample. The claim says the renderer returns the written
file path to its caller; the Python function has no `return` statement, so at
a concrete input it returns `None`, not the path. -/
theorem visualize_does_not_return_path :
    (visualize_classification_map [[0]] [[0]] ("Pavia University")).ret = none := rfl

/-- Claim C9, amended. For every dataset name, the renderer writes exactly one
image to the path `{dataset_name}_classification_vs_ground_truth.png` in the
current working directory (overwriting silently), but returns `None` — the
written path is printed, not returned to the caller. -/
theorem visualize_writes_one_file_returns_none (cmap gmap : Grid) (dname : String) :
    (visualize_classification_map cmap gmap dname).savedPaths
      = [dname ++ "_classification_vs_ground_truth.png"] ∧
    (visualize_classification_map cmap gmap dname).ret = none :=
  ⟨rfl, rfl⟩

/-- Claim C10. In every successful `model_train_test` run, pixels with label 0
are treated as an ordinary class: the label vector the stratified split is
keyed on is the full flattened ground truth (nothing masked), label 0 is one
of its strata whenever it occurs, every pixel position lands in the train or
the test partition, a 0-labeled pixel's label ends up in the training or test
labels, and the classification report / confusion matrix arguments are the
full flattened ground truth against the full-map predictions. -/
theorem unlabeled_class_fully_included (o : Oracles) (gr : ℕ) (cube : Cube)
    (gt : Grid) (limited : Table) (out : RunOutput)
    (h : model_train_test o gr cube gt limited = Except.ok out) :
    out.split.yAll = gt.flatten ∧
    out.reportYTrue = gt.flatten ∧
    out.reportYPred = out.yPredFull ∧
    (∀ i, i < gt.flatten.length →
      i ∈ out.split.trainIdx ∨ i ∈ out.split.testIdx) ∧
    ((0 : ℤ) ∈ gt.flatten → (0 : ℤ) ∈ classesOf gt.flatten ∧
      ((0 : ℤ) ∈ out.split.ytrain ∨ (0 : ℤ) ∈ out.split.ytest)) := by
  obtain ⟨s, y_pred, y_pred_full, hs, _, _, hout⟩ :=
    model_train_test_ok_inv o gr cube gt limited defaultTestSize 42 out h
  obtain ⟨_, hsplit⟩ :=
    trainTestSplit_ok_inv limited gt.flatten defaultTestSize (some 42) gr s hs
  subst hout
  subst hsplit
  refine ⟨rfl, rfl, rfl, ?_, ?_⟩
  · intro i hi
    exact trainIdx_or_testIdx gt.flatten defaultTestSize 42 i hi
  · intro h0
    refine ⟨List.mem_dedup.mpr h0, ?_⟩
    obtain ⟨i, hi, hget⟩ := List.getElem_of_mem h0
    have hgetD : gt.flatten.getD i 0 = 0 := by
      rw [List.getD_eq_getElem gt.flatten 0 hi, hget]
    rcases trainIdx_or_testIdx gt.flatten defaultTestSize 42 i hi with hin | hin
    · exact Or.inl (List.mem_map.mpr ⟨i, hin, hgetD⟩)
    · exact Or.inr (List.mem_map.mpr ⟨i, hin, hgetD⟩)

/-- Claim C10, witness: the successful concrete run on `cube2`, whose labels
contain the background class 0. -/
theorem unlabeled_class_fully_included_witness :
    (model_train_test testOracle 0 cube2 gt2 limited2 = Except.ok out2) ∧
    (out2.split.yAll = gt2.flatten ∧
      out2.reportYTrue = gt2.flatten ∧
      out2.reportYPred = out2.yPredFull ∧
      (∀ i, i < gt2.flatten.length →
        i ∈ out2.split.trainIdx ∨ i ∈ out2.split.testIdx) ∧
      ((0 : ℤ) ∈ gt2.flatten → (0 : ℤ) ∈ classesOf gt2.flatten ∧
        ((0 : ℤ) ∈ out2.split.ytrain ∨ (0 : ℤ) ∈ out2.split.ytest))) :=
  ⟨rfl, unlabeled_class_fully_included testOracle 0 cube2 gt2 limited2 out2 rfl⟩
